import Mathlib

/-!
Shallow embedding of `invenio-users-resources` (permission generators,
groups service, groups resource configuration) together with theorems
checking the natural-language specification against the code.

Python source files embedded here:
  * `invenio_users_resources/permissions.py` (SuperUserMixin,
    AdministratorGroupAction, AdministratorUserAction)
  * `invenio_users_resources/services/generators.py` (IfPublic, Self,
    IfGroupActionRoleMatches, IfUserActionRoleMatches)
  * `invenio_users_resources/services/groups/service.py` (GroupsService)
  * `invenio_users_resources/resources/groups/config.py`
  * `invenio_users_resources/resources/groups/resource.py`
-/

/-- A role carrying the framework's `superuser_access` action, as returned by
`ActionRoles.query_by_action(superuser_access)`: each entry wraps a `Role`
with an `id`, a `name` and a list of member user ids. -/
structure Role where
  id : Nat
  name : String
  users : List Nat
deriving DecidableEq, Repr

/-- `SuperUserMixin._is_group_superadmin`: the group id is among the ids of
the roles carrying the superuser action. -/
def is_group_superadmin (group_id : Nat) (roles : List Role) : Bool :=
  roles.any (fun r => r.id == group_id)

/-- `SuperUserMixin._is_user_superadmin`: the identity's id is among the
members of the roles carrying the superuser action. -/
def is_user_superadmin (identity_id : Nat) (roles : List Role) : Bool :=
  roles.any (fun r => r.users.contains identity_id)

/-- `SuperUserMixin._get_superadmin_groups`: the set of names of the roles
carrying the superuser action (a Python set; modelled as a deduplicated
list). -/
def get_superadmin_groups (roles : List Role) : List String :=
  (roles.map (fun r => r.name)).dedup

/-- `SuperUserMixin._get_superadmin_users`: the set of ids of users belonging
to a role carrying the superuser action (a Python set; modelled as a
deduplicated list). -/
def get_superadmin_users (roles : List Role) : List Nat :=
  ((roles.map (fun r => r.users)).flatten).dedup

/-- `IfGroupActionRoleMatches._should_action_proceed`.  The Python method
returns a pair `(proceed, branch)` where `proceed` is a bool and `branch` is
`0`, `1` or `None`; it receives the ambient list of superadmin roles, an
optional identity (modelled by its id) and an optional target group
(modelled by its id). -/
def group_should_action_proceed (roles : List Role) (identity : Option Nat)
    (group : Option Nat) : Bool × Option Nat :=
  if roles.isEmpty then (true, some 1)
  else
    let is_user_super := match identity with
      | some i => is_user_superadmin i roles
      | none => false
    let is_group_super := match group with
      | some g => is_group_superadmin g roles
      | none => false
    if identity.isNone || group.isNone then
      match identity with
      | some _ => if is_user_super then (true, some 0) else (true, some 1)
      | none =>
        match group with
        | some _ => if is_group_super then (false, none) else (true, some 1)
        | none => (true, some 1)
    else
      match is_user_super, is_group_super with
      | true, true => (true, some 0)
      | true, false => (true, some 1)
      | false, true => (false, none)
      | false, false => (true, some 1)

/-- `IfUserActionRoleMatches._should_action_proceed`.  The `group` argument
is ignored by the Python body, so it is omitted here. -/
def user_should_action_proceed (roles : List Role) (identity : Option Nat) :
    Bool × Option Nat :=
  if roles.isEmpty then (true, some 1)
  else
    match identity with
    | some i =>
      if is_user_superadmin i roles then (true, some 0) else (true, some 1)
    | none => (false, none)

/-- C1: with a non-empty superadmin role set and both an identity and a
target group given, `IfGroupActionRoleMatches._should_action_proceed` allows
the action exactly by the precedence table: (super, super) ↦ allowed,
(super, plain) ↦ allowed, (plain, super) ↦ denied, (plain, plain) ↦
allowed. -/
theorem c1_group_action_precedence_table (roles : List Role) (u g : Nat)
    (h : roles ≠ []) :
    (group_should_action_proceed roles (some u) (some g)).1 =
      match is_user_superadmin u roles, is_group_superadmin g roles with
      | true, true => true
      | true, false => true
      | false, true => false
      | false, false => true := by
  have hne : roles.isEmpty = false := by
    cases roles with
    | nil => exact absurd rfl h
    | cons a l => rfl
  simp only [group_should_action_proceed, hne, Bool.false_eq_true, if_false,
    Option.isNone_some, Bool.or_self]
  cases hu : is_user_superadmin u roles <;>
    cases hg : is_group_superadmin g roles <;> rfl

/-- Witness for C1 at a concrete non-empty role set. -/
theorem c1_group_action_precedence_table_witness :
    (group_should_action_proceed [⟨1, "admin", [5]⟩] (some 7) (some 1)).1 =
      match is_user_superadmin 7 [⟨1, "admin", [5]⟩],
        is_group_superadmin 1 [⟨1, "admin", [5]⟩] with
      | true, true => true
      | true, false => true
      | false, true => false
      | false, false => true :=
  c1_group_action_precedence_table [⟨1, "admin", [5]⟩] 7 1 (by decide)

/-- C2: with an empty superadmin role set, both
`IfGroupActionRoleMatches._should_action_proceed` and
`IfUserActionRoleMatches._should_action_proceed` return the allow outcome
`(True, 1)` for every identity (including none) and every target group
(including none). -/
theorem c2_no_superuser_roles_allows_everyone (identity group : Option Nat) :
    group_should_action_proceed [] identity group = (true, some 1) ∧
    user_should_action_proceed [] identity = (true, some 1) := by
  constructor <;> rfl

/-- C3 counterexample: with superadmin roles defined,
`IfUserActionRoleMatches._should_action_proceed` on an absent identity
returns `(False, None)` — a denial, not the default-allow outcome claimed.
-/
theorem c3_absent_identity_not_default_allow :
    user_should_action_proceed [⟨1, "admin", [5]⟩] none = (false, none) ∧
    ¬ (user_should_action_proceed [⟨1, "admin", [5]⟩] none).1 = true := by
  constructor
  · rfl
  · decide

/-- C3 (amended): with superadmin roles defined, the absent-identity /
absent-target special cases behave as follows.  `IfGroupActionRoleMatches`:
identity present and target absent ↦ allow (branch 0 if the identity is
superadmin, else branch 1); identity absent and target present ↦ deny if the
target group is superadmin, else allow; both absent ↦ allow `(True, 1)`.
`IfUserActionRoleMatches`: identity present ↦ allow, identity absent ↦ deny
`(False, None)`. -/
theorem c3_amended_absent_cases (roles : List Role) (u g : Nat)
    (h : roles ≠ []) :
    group_should_action_proceed roles (some u) none =
      (if is_user_superadmin u roles then (true, some 0) else (true, some 1)) ∧
    group_should_action_proceed roles none (some g) =
      (if is_group_superadmin g roles then (false, none) else (true, some 1)) ∧
    group_should_action_proceed roles none none = (true, some 1) ∧
    user_should_action_proceed roles (some u) =
      (if is_user_superadmin u roles then (true, some 0) else (true, some 1)) ∧
    user_should_action_proceed roles none = (false, none) := by
  have hne : roles.isEmpty = false := by
    cases roles with
    | nil => exact absurd rfl h
    | cons a l => rfl
  refine ⟨?_, ?_, ?_, ?_, ?_⟩
  · cases hu : is_user_superadmin u roles <;>
      simp [group_should_action_proceed, hne, hu]
  · cases hg : is_group_superadmin g roles <;>
      simp [group_should_action_proceed, hne, hg]
  · simp [group_should_action_proceed, hne]
  · cases hu : is_user_superadmin u roles <;>
      simp [user_should_action_proceed, hne, hu]
  · simp [user_should_action_proceed, hne]

/-- Witness for the amended C3 at a concrete non-empty role set. -/
theorem c3_amended_absent_cases_witness :
    group_should_action_proceed [⟨1, "admin", [5]⟩] (some 5) none =
      (if is_user_superadmin 5 [⟨1, "admin", [5]⟩] then (true, some 0)
        else (true, some 1)) ∧
    group_should_action_proceed [⟨1, "admin", [5]⟩] none (some 1) =
      (if is_group_superadmin 1 [⟨1, "admin", [5]⟩] then (false, none)
        else (true, some 1)) ∧
    group_should_action_proceed [⟨1, "admin", [5]⟩] none none =
      (true, some 1) ∧
    user_should_action_proceed [⟨1, "admin", [5]⟩] (some 5) =
      (if is_user_superadmin 5 [⟨1, "admin", [5]⟩] then (true, some 0)
        else (true, some 1)) ∧
    user_should_action_proceed [⟨1, "admin", [5]⟩] none = (false, none) :=
  c3_amended_absent_cases [⟨1, "admin", [5]⟩] 5 1 (by decide)

/-- A group aggregate as resolved by `GroupAggregate.get_record` /
`GroupAggregate.get_record_by_name`: a role-backed record with an id and a
name. -/
structure GroupAggregate where
  id : String
  name : String
deriving DecidableEq, Repr

/-- The error raised by the groups service:
`PermissionDeniedError(action_name)` when an action name is given, or a bare
`PermissionDeniedError()` (missing record). -/
inductive SvcError where
  | permissionDenied (action : Option String)
deriving DecidableEq, Repr

/-- A state mutation registered by a mutating service operation:
`group.add_user`, `group.remove_user`, and the unit-of-work
`RecordCommitOp` registration. -/
inductive Mutation where
  | addUser (groupId : String) (userId : String)
  | removeUser (groupId : String) (userId : String)
  | commit (groupId : String)
deriving DecidableEq, Repr

/-- The ambient environment of `GroupsService`: the record lookups
(`GroupAggregate.get_record` by id, `GroupAggregate.get_record_by_name`)
and the configured permission policy (`permission_policy(action).allows
(identity)`), with identities modelled by their id. -/
structure SvcEnv where
  getRecord : String → Option GroupAggregate
  getRecordByName : String → Option GroupAggregate
  allows : Nat → String → Option GroupAggregate → Bool

/-- `GroupsService.check_permission`: instantiate the permission policy for
the action and ask whether it allows the identity. -/
def check_permission (env : SvcEnv) (identity : Nat) (action : String)
    (record : Option GroupAggregate) : Bool :=
  env.allows identity action record

/-- `GroupsService.require_permission`: like `check_permission` but raises
`PermissionDeniedError(action_name)` when not allowed. -/
def require_permission (env : SvcEnv) (identity : Nat) (action : String)
    (record : Option GroupAggregate) : Except SvcError Unit :=
  if check_permission env identity action record then Except.ok ()
  else Except.error (SvcError.permissionDenied (some action))

/-- `GroupsService.read`: resolve the group by id, raise a bare
`PermissionDeniedError()` when missing, then require the `read`
permission and return the group. -/
def GroupsService.read (env : SvcEnv) (identity : Nat) (id_ : String) :
    Except SvcError GroupAggregate :=
  match env.getRecord id_ with
  | none => Except.error (SvcError.permissionDenied none)
  | some group => do
    let _ ← require_permission env identity "read" (some group)
    Except.ok group

/-- `GroupsService.read_avatar`: resolve the group by name, raise a bare
`PermissionDeniedError()` when missing, then require the `read`
permission and return the avatar result (modelled by the group). -/
def GroupsService.read_avatar (env : SvcEnv) (identity : Nat)
    (name_ : String) : Except SvcError GroupAggregate :=
  match env.getRecordByName name_ with
  | none => Except.error (SvcError.permissionDenied none)
  | some group => do
    let _ ← require_permission env identity "read" (some group)
    Except.ok group

/-- `GroupsService.update`: resolve the group by id, raise a bare
`PermissionDeniedError()` when missing, require the `update` permission,
then update and commit; the returned list records the registered
mutations. -/
def GroupsService.update (env : SvcEnv) (identity : Nat) (id_ : String) :
    Except SvcError (List Mutation) :=
  match env.getRecord id_ with
  | none => Except.error (SvcError.permissionDenied none)
  | some group => do
    let _ ← require_permission env identity "update" (some group)
    Except.ok [Mutation.commit group.id]

/-- `GroupsService.add_user`: resolve the group by id, raise a bare
`PermissionDeniedError()` when missing, require the `manage` permission,
then add the user and commit. -/
def GroupsService.add_user (env : SvcEnv) (identity : Nat) (id_ : String)
    (user_id : String) : Except SvcError (List Mutation) :=
  match env.getRecord id_ with
  | none => Except.error (SvcError.permissionDenied none)
  | some group => do
    let _ ← require_permission env identity "manage" (some group)
    Except.ok [Mutation.addUser group.id user_id, Mutation.commit group.id]

/-- `GroupsService.remove_user`: resolve the group by id, raise a bare
`PermissionDeniedError()` when missing, require the `manage` permission,
then remove the user and commit. -/
def GroupsService.remove_user (env : SvcEnv) (identity : Nat) (id_ : String)
    (user_id : String) : Except SvcError (List Mutation) :=
  match env.getRecord id_ with
  | none => Except.error (SvcError.permissionDenied none)
  | some group => do
    let _ ← require_permission env identity "manage" (some group)
    Except.ok [Mutation.removeUser group.id user_id, Mutation.commit group.id]

/-- `GroupsService.list_users`: resolve the group by id, raise a bare
`PermissionDeniedError()` when missing, require the `read` permission,
then list the group's users (modelled by returning the group). -/
def GroupsService.list_users (env : SvcEnv) (identity : Nat)
    (id_ : String) : Except SvcError GroupAggregate :=
  match env.getRecord id_ with
  | none => Except.error (SvcError.permissionDenied none)
  | some group => do
    let _ ← require_permission env identity "read" (some group)
    Except.ok group

/-- C4: whenever the group lookup returns no record, every
id-taking `GroupsService` operation (read, read_avatar, update, add_user,
remove_user, list_users) raises `PermissionDeniedError` — the same error as
a permission failure — for every permission policy (so before any
permission check) and registers no mutation. -/
theorem c4_missing_group_is_permission_denied (env : SvcEnv) (identity : Nat)
    (id_ user_id : String) (h : env.getRecord id_ = none)
    (hn : env.getRecordByName id_ = none) :
    GroupsService.read env identity id_ =
      Except.error (SvcError.permissionDenied none) ∧
    GroupsService.read_avatar env identity id_ =
      Except.error (SvcError.permissionDenied none) ∧
    GroupsService.update env identity id_ =
      Except.error (SvcError.permissionDenied none) ∧
    GroupsService.add_user env identity id_ user_id =
      Except.error (SvcError.permissionDenied none) ∧
    GroupsService.remove_user env identity id_ user_id =
      Except.error (SvcError.permissionDenied none) ∧
    GroupsService.list_users env identity id_ =
      Except.error (SvcError.permissionDenied none) := by
  refine ⟨?_, ?_, ?_, ?_, ?_, ?_⟩ <;>
    simp [GroupsService.read, GroupsService.read_avatar, GroupsService.update,
      GroupsService.add_user, GroupsService.remove_user,
      GroupsService.list_users, h, hn]

/-- Witness for C4 at a concrete environment with an empty database. -/
theorem c4_missing_group_is_permission_denied_witness :
    GroupsService.read
      ⟨fun _ => none, fun _ => none, fun _ _ _ => true⟩ 1 "g1" =
      Except.error (SvcError.permissionDenied none) ∧
    GroupsService.read_avatar
      ⟨fun _ => none, fun _ => none, fun _ _ _ => true⟩ 1 "g1" =
      Except.error (SvcError.permissionDenied none) ∧
    GroupsService.update
      ⟨fun _ => none, fun _ => none, fun _ _ _ => true⟩ 1 "g1" =
      Except.error (SvcError.permissionDenied none) ∧
    GroupsService.add_user
      ⟨fun _ => none, fun _ => none, fun _ _ _ => true⟩ 1 "g1" "u1" =
      Except.error (SvcError.permissionDenied none) ∧
    GroupsService.remove_user
      ⟨fun _ => none, fun _ => none, fun _ _ _ => true⟩ 1 "g1" "u1" =
      Except.error (SvcError.permissionDenied none) ∧
    GroupsService.list_users
      ⟨fun _ => none, fun _ => none, fun _ _ _ => true⟩ 1 "g1" =
      Except.error (SvcError.permissionDenied none) :=
  c4_missing_group_is_permission_denied
    ⟨fun _ => none, fun _ => none, fun _ _ _ => true⟩ 1 "g1" "u1" rfl rfl

/-- C10: `GroupsService.require_permission` raises
`PermissionDeniedError(action)` exactly when `check_permission` returns
false for the same identity and action, and returns unit (no state change)
when the permission is allowed. -/
theorem c10_require_permission_iff_check (env : SvcEnv) (identity : Nat)
    (action : String) (record : Option GroupAggregate) :
    (require_permission env identity action record =
        Except.error (SvcError.permissionDenied (some action)) ↔
      check_permission env identity action record = false) ∧
    (check_permission env identity action record = true →
      require_permission env identity action record = Except.ok ()) := by
  unfold require_permission
  cases h : check_permission env identity action record <;> simp

/-- The fragment of the search-engine query DSL (`invenio_search.engine.dsl.Q`)
built by the generators in this repository: `match_all`, `match`, `term`
(string- and id-valued), `terms` (string- and id-valued), conjunction `&`,
disjunction `|` and negation `~`. -/
inductive Q where
  | matchAll
  | matchQ (field val : String)
  | term (field val : String)
  | termNat (field : String) (val : Nat)
  | terms (field : String) (vals : List String)
  | termsNat (field : String) (vals : List Nat)
  | andQ (a b : Q)
  | orQ (a b : Q)
  | notQ (a : Q)
deriving DecidableEq, Repr

/-- The body of a `flask_resources` HTTP error handler: a status code and a
message. -/
structure HTTPJSONException where
  code : Nat
  description : String
deriving DecidableEq, Repr

/-- The error classes a groups-resource error handler can be registered
for: the repository's own `ForeignKeyIntegrityError`, or one of the
framework errors already covered by `ErrorHandlersMixin.error_handlers`. -/
inductive ResourceError where
  | foreignKeyIntegrity
  | frameworkError (name : String)
deriving DecidableEq, Repr

/-- `GroupsResourceConfig.error_handlers`: the mixin's handlers (framework
code, modelled as an opaque per-name lookup passed in) extended with the
entry for `ForeignKeyIntegrityError`. -/
def groups_error_handlers (mixinHandlers : String → Option HTTPJSONException) :
    ResourceError → Option HTTPJSONException
  | ResourceError.foreignKeyIntegrity =>
      some ⟨403, "You\x27re deleing a group that might be used elsewhere."⟩
  | ResourceError.frameworkError n => mixinHandlers n

/-- C5: for every occurrence of `ForeignKeyIntegrityError` (whatever the
mixin's other handlers are), the groups resource configuration maps it to an
HTTP response with status 403 and the fixed message "You're deleing a group
that might be used elsewhere.". -/
theorem c5_foreign_key_integrity_maps_to_403
    (mixinHandlers : String → Option HTTPJSONException) :
    groups_error_handlers mixinHandlers ResourceError.foreignKeyIntegrity =
      some ⟨403, "You\x27re deleing a group that might be used elsewhere."⟩ ∧
    ∀ r : HTTPJSONException,
      groups_error_handlers mixinHandlers ResourceError.foreignKeyIntegrity =
        some r → r.code = 403 := by
  refine ⟨rfl, ?_⟩
  intro r hr
  cases hr
  rfl

/-- `GroupsResourceConfig.routes`: the route table of the groups resource,
relative to the `/groups` URL prefix. -/
def groups_routes : List (String × String) :=
  [("list", ""), ("item", "/<id>"), ("item-avatar", "/<id>/avatar.svg"),
   ("manage-user", "/<id>/users/<user_id>"), ("users", "/<id>/users")]

/-- Lookup in `GroupsResourceConfig.routes` (total on the keys used by
`create_url_rules`). -/
def routeOf (key : String) : String :=
  (groups_routes.lookup key).getD ""

/-- The view methods of `GroupsResource` that routes can point at. -/
inductive Handler where
  | search | create | read | update | avatar | add_user | remove_user | users
deriving DecidableEq, Repr

/-- `GroupsResource.create_url_rules`: the registered
(method, route, handler) triples. -/
def create_url_rules : List (String × String × Handler) :=
  [("GET", routeOf "list", Handler.search),
   ("POST", routeOf "list", Handler.create),
   ("GET", routeOf "item", Handler.read),
   ("PUT", routeOf "item", Handler.update),
   ("GET", routeOf "item-avatar", Handler.avatar),
   ("PUT", routeOf "manage-user", Handler.add_user),
   ("DELETE", routeOf "manage-user", Handler.remove_user),
   ("GET", routeOf "users", Handler.users)]

/-- C6: the groups HTTP surface registers exactly the claimed method/route
pairs — GET and POST on "", GET and PUT on "/<id>", GET on
"/<id>/avatar.svg", GET on "/<id>/users", PUT and DELETE on
"/<id>/users/<user_id>" — and in particular no DELETE on "/<id>". -/
theorem c6_registered_routes :
    create_url_rules.map (fun r => (r.1, r.2.1)) =
      [("GET", ""), ("POST", ""), ("GET", "/<id>"), ("PUT", "/<id>"),
       ("GET", "/<id>/avatar.svg"), ("PUT", "/<id>/users/<user_id>"),
       ("DELETE", "/<id>/users/<user_id>"), ("GET", "/<id>/users")] ∧
    ("DELETE", "/<id>") ∉ create_url_rules.map (fun r => (r.1, r.2.1)) := by
  constructor
  · rfl
  · decide

/-- `USER_MANAGEMENT_ACTION_NAME` from `permissions.py`. -/
def USER_MANAGEMENT_ACTION_NAME : String := "administration-moderation"

/-- `AdministratorGroupAction.query_filter`.  `action` is the action the
generator was constructed with; `allows i a` models
`Permission(action).allows(identity)`, i.e. whether the identity provides
the action need; an absent identity or a failed check yields the Python
empty-list filter, modelled as `none`. -/
def administrator_group_action_query_filter (action : String)
    (roles : List Role) (allows : Nat → String → Bool)
    (identity : Option Nat) : Option Q :=
  match identity with
  | some i =>
    if allows i action then
      some (Q.andQ Q.matchAll
        (Q.notQ (Q.terms "name" (get_superadmin_groups roles))))
    else none
  | none => none

/-- `AdministratorUserAction.query_filter`: same shape, excluding the ids of
users that belong to a superadmin role. -/
def administrator_user_action_query_filter (action : String)
    (roles : List Role) (allows : Nat → String → Bool)
    (identity : Option Nat) : Option Q :=
  match identity with
  | some i =>
    if allows i action then
      some (Q.andQ Q.matchAll
        (Q.notQ (Q.termsNat "id" (get_superadmin_users roles))))
    else none
  | none => none

/-- C7: an identity holding the "administration-moderation" action gets from
`AdministratorGroupAction.query_filter` match-all minus exactly the names of
the superuser roles, and from `AdministratorUserAction.query_filter`
match-all minus exactly the ids of the users in those roles; an identity not
holding the action gets the empty filter from both. -/
theorem c7_administrator_query_filters (roles : List Role)
    (allows : Nat → String → Bool) (i : Nat)
    (h : allows i USER_MANAGEMENT_ACTION_NAME = true) :
    administrator_group_action_query_filter USER_MANAGEMENT_ACTION_NAME
        roles allows (some i) =
      some (Q.andQ Q.matchAll
        (Q.notQ (Q.terms "name" (get_superadmin_groups roles)))) ∧
    administrator_user_action_query_filter USER_MANAGEMENT_ACTION_NAME
        roles allows (some i) =
      some (Q.andQ Q.matchAll
        (Q.notQ (Q.termsNat "id" (get_superadmin_users roles)))) ∧
    (∀ j : Nat, allows j USER_MANAGEMENT_ACTION_NAME = false →
      administrator_group_action_query_filter USER_MANAGEMENT_ACTION_NAME
          roles allows (some j) = none ∧
      administrator_user_action_query_filter USER_MANAGEMENT_ACTION_NAME
          roles allows (some j) = none) := by
  refine ⟨?_, ?_, ?_⟩
  · simp [administrator_group_action_query_filter, h]
  · simp [administrator_user_action_query_filter, h]
  · intro j hj
    constructor
    · simp [administrator_group_action_query_filter, hj]
    · simp [administrator_user_action_query_filter, hj]

/-- Witness for C7 at a concrete role set and permission table. -/
theorem c7_administrator_query_filters_witness :
    administrator_group_action_query_filter USER_MANAGEMENT_ACTION_NAME
        [⟨1, "admin", [5]⟩] (fun j _ => j == 9) (some 9) =
      some (Q.andQ Q.matchAll
        (Q.notQ (Q.terms "name" (get_superadmin_groups [⟨1, "admin", [5]⟩])))) ∧
    administrator_user_action_query_filter USER_MANAGEMENT_ACTION_NAME
        [⟨1, "admin", [5]⟩] (fun j _ => j == 9) (some 9) =
      some (Q.andQ Q.matchAll
        (Q.notQ (Q.termsNat "id" (get_superadmin_users [⟨1, "admin", [5]⟩])))) ∧
    (∀ j : Nat, (fun j _ => j == 9) j USER_MANAGEMENT_ACTION_NAME = false →
      administrator_group_action_query_filter USER_MANAGEMENT_ACTION_NAME
          [⟨1, "admin", [5]⟩] (fun j _ => j == 9) (some j) = none ∧
      administrator_user_action_query_filter USER_MANAGEMENT_ACTION_NAME
          [⟨1, "admin", [5]⟩] (fun j _ => j == 9) (some j) = none) :=
  c7_administrator_query_filters [⟨1, "admin", [5]⟩] (fun j _ => j == 9) 9
    (by decide)

/-- A user record as seen by the `IfPublic` generators: an id and the
`preferences` mapping (an association list of preference name to value). -/
structure UserRecord where
  id : Nat
  preferences : List (String × String)
deriving DecidableEq, Repr

/-- `IfPublic._condition`: no record selects the else-branch; otherwise the
record's preference for the configured field, defaulting to "restricted",
must equal "public". -/
def ifPublic_condition (field_name : String)
    (record : Option UserRecord) : Bool :=
  match record with
  | none => false
  | some r => ((r.preferences.lookup field_name).getD "restricted") == "public"

/-- `IfPublic.query_filter`: combine the match-on-public and
match-on-restricted queries with the branch queries produced by
`_make_query` (an empty generator set yields no query, modelled as
`none`). -/
def ifPublic_query_filter (field_name : String)
    (then_query else_query : Option Q) : Q :=
  let q_public := Q.matchQ ("preferences." ++ field_name) "public"
  let q_restricted := Q.matchQ ("preferences." ++ field_name) "restricted"
  match then_query, else_query with
  | some tq, some eq2 => Q.orQ (Q.andQ q_public tq) (Q.andQ q_restricted eq2)
  | some tq, none => Q.andQ q_public tq
  | none, some eq2 => Q.orQ q_public (Q.andQ q_restricted eq2)
  | none, none => q_public

/-- C8: `IfPublic._condition` picks the then-branch exactly when the record's
preference is "public" (a missing preference defaults to "restricted", a
missing record to the else-branch), and `IfPublic.query_filter` combines the
branch queries in the four claimed shapes. -/
theorem c8_if_public_condition_and_filter (f : String) (tq eq2 : Q) :
    ifPublic_condition f none = false ∧
    (∀ i : Nat, ifPublic_condition f (some ⟨i, []⟩) = false) ∧
    (∀ r : UserRecord, ifPublic_condition f (some r) = true ↔
      r.preferences.lookup f = some "public") ∧
    ifPublic_query_filter f (some tq) (some eq2) =
      Q.orQ (Q.andQ (Q.matchQ ("preferences." ++ f) "public") tq)
        (Q.andQ (Q.matchQ ("preferences." ++ f) "restricted") eq2) ∧
    ifPublic_query_filter f (some tq) none =
      Q.andQ (Q.matchQ ("preferences." ++ f) "public") tq ∧
    ifPublic_query_filter f none (some eq2) =
      Q.orQ (Q.matchQ ("preferences." ++ f) "public")
        (Q.andQ (Q.matchQ ("preferences." ++ f) "restricted") eq2) ∧
    ifPublic_query_filter f none none =
      Q.matchQ ("preferences." ++ f) "public" := by
  refine ⟨rfl, fun i => rfl, ?_, rfl, rfl, rfl, rfl⟩
  intro r
  unfold ifPublic_condition
  cases hl : r.preferences.lookup f <;> simp [hl]

/-- An authorization need: a method (e.g. "id", "role") and a value.  `UserNeed
(v)` is the need with method "id" and value `v`. -/
structure Need where
  method : String
  value : Nat
deriving DecidableEq, Repr

/-- An authenticated identity: its id and the needs it provides, in
order. -/
structure Identity where
  id : Nat
  provides : List Need
deriving DecidableEq, Repr

/-- `Self.needs`: the single `UserNeed(record.id)` when a record is given,
nothing otherwise. -/
def self_needs (record : Option UserRecord) : List Need :=
  match record with
  | some r => [⟨"id", r.id⟩]
  | none => []

/-- The first need of the identity whose method is "id", as found by the
`for` loop in `Self.query_filter`. -/
def firstIdNeed (needsList : List Need) : Option Need :=
  needsList.find? (fun n => n.method == "id")

/-- `Self.query_filter`: a term filter on the value of the identity's first
"id"-method need; no identity or no such need yields the Python empty-list
filter, modelled as `none`. -/
def self_query_filter (identity : Option Identity) : Option Q :=
  match identity with
  | some i =>
    match firstIdNeed i.provides with
    | some n => some (Q.termNat "id" n.value)
    | none => none
  | none => none

/-- C9: `Self.needs` grants exactly the single need naming the record's own
id and nothing for a missing record; `Self.query_filter` returns a term
filter on the identity's first "id"-method need, and the empty filter when
the identity is missing or provides no such need. -/
theorem c9_self_generator (r : UserRecord) (i : Identity) (n : Need)
    (hfound : firstIdNeed i.provides = some n) :
    self_needs (some r) = [⟨"id", r.id⟩] ∧
    self_needs none = [] ∧
    self_query_filter (some i) = some (Q.termNat "id" n.value) ∧
    (∀ j : Identity, firstIdNeed j.provides = none →
      self_query_filter (some j) = none) ∧
    self_query_filter none = none := by
  refine ⟨rfl, rfl, ?_, ?_, rfl⟩
  · simp [self_query_filter, hfound]
  · intro j hj
    simp [self_query_filter, hj]

/-- Witness for C9 at a concrete record and identity. -/
theorem c9_self_generator_witness :
    self_needs (some ⟨4, []⟩) = [⟨"id", 4⟩] ∧
    self_needs none = [] ∧
    self_query_filter (some ⟨3, [⟨"system", 0⟩, ⟨"id", 3⟩]⟩) =
      some (Q.termNat "id" 3) ∧
    (∀ j : Identity, firstIdNeed j.provides = none →
      self_query_filter (some j) = none) ∧
    self_query_filter none = none :=
  c9_self_generator ⟨4, []⟩ ⟨3, [⟨"system", 0⟩, ⟨"id", 3⟩]⟩ ⟨"id", 3⟩ rfl
